import Mathlib

/-!
Shallow embedding of the `config_watcher` crate (project_01): the
configuration data model (`config.rs`), the error taxonomy (`error.rs`),
CLI argument validation (`cli.rs`), and the watch loop (`watcher.rs`).
Filesystem and clock behaviour is supplied per tick by an explicit
environment record; machine integers (`u16`, `u32`, `u64`) are modelled
as `Nat` (no arithmetic is performed on them, so overflow never arises).
-/

namespace Project01

/-- Model of Rust `str` helpers used by the crate, defined over the
character list of the string. `trim` models Rust `str::trim` (strip
leading and trailing whitespace); the whitespace predicate is
`Char.isWhitespace` (space, tab, CR, LF), the ASCII fragment of Rust's
Unicode `White_Space` property, which covers every string the crate's
rules and tests exercise. -/
def RustStr.trim (s : String) : String :=
  ⟨((s.data.dropWhile Char.isWhitespace).reverse.dropWhile Char.isWhitespace).reverse⟩

/-- Model of Rust `str::contains` for a single-character pattern, as used
by `validate` on the `version` field. -/
def RustStr.contains (s : String) (c : Char) : Bool :=
  s.data.contains c

/-- Structure `ServerConfig` from `config.rs`. `port` is a `u16` in the source,
modelled as `Nat` (the deserializer enforces the `u16` range). -/
structure ServerConfig where
  host : String
  port : Nat
  enable_ssl : Bool
deriving DecidableEq, Repr

/-- Structure `DatabaseConfig` from `config.rs`. `pool_size : u32` and
`timeout_seconds : u64` are modelled as `Nat` (ranges enforced at
deserialization). -/
structure DatabaseConfig where
  connection_string : String
  pool_size : Nat
  timeout_seconds : Nat
deriving DecidableEq, Repr

/-- Structure `AppConfig` from `config.rs`. The `features : HashMap<String, bool>`
field is modelled as an association list. -/
structure AppConfig where
  app_name : String
  version : String
  environment : String
  server : Option ServerConfig
  database : Option DatabaseConfig
  features : List (String × Bool)
deriving DecidableEq, Repr

/-- Serde default function `default_environment` from `config.rs`. -/
def default_environment : String := "development"

/-- Serde default function `default_true` from `config.rs`. -/
def default_true : Bool := true

/-- Serde default function `default_pool_size` from `config.rs`. -/
def default_pool_size : Nat := 10

/-- Serde default function `default_timeout` from `config.rs`. -/
def default_timeout : Nat := 30

/-- Error taxonomy `ConfigError` from `error.rs`. The `path` and `source` payloads carry
no information the watcher branches on, so they are dropped; the
`reason` of `ValidationFailed` is kept. Error-message interpolation of
runtime values is elided from the `reason` strings. -/
inductive ConfigError where
  | fileNotFound
  | metadataError
  | invalidJson
  | validationFailed (reason : String)
  | readError
deriving DecidableEq, Repr

/-- The list `valid_envs` from `AppConfig::validate`. -/
def valid_envs : List String := ["development", "staging", "production"]

/-- The `server` block of `AppConfig::validate` (the checks inside
`if let Some(ref server) = self.server`). -/
def checkServer (s : Option ServerConfig) : Except ConfigError Unit :=
  match s with
  | some server =>
    if (RustStr.trim server.host).data.isEmpty then
      .error (.validationFailed "server.host cannot be empty")
    else if server.port = 0 then
      .error (.validationFailed "server.port must be greater than 0")
    else
      .ok ()
  | none => .ok ()

/-- The `database` block of `AppConfig::validate` (the checks inside
`if let Some(ref db) = self.database`). -/
def checkDatabase (d : Option DatabaseConfig) : Except ConfigError Unit :=
  match d with
  | some db =>
    if (RustStr.trim db.connection_string).data.isEmpty then
      .error (.validationFailed "database.connection_string cannot be empty")
    else if db.pool_size = 0 then
      .error (.validationFailed "database.pool_size must be greater than 0")
    else
      .ok ()
  | none => .ok ()

/-- Method `AppConfig::validate` from `config.rs`: the business-rule checks,
performed in source order, each early return modelled by `Except`
short-circuiting. -/
def AppConfig.validate (c : AppConfig) : Except ConfigError Unit :=
  if (RustStr.trim c.app_name).data.isEmpty then
    .error (.validationFailed "app_name cannot be empty")
  else if !(RustStr.contains c.version '.') then
    .error (.validationFailed "version should follow semver format")
  else if !(valid_envs.contains c.environment) then
    .error (.validationFailed "environment must be one of: development, staging, production")
  else
    match checkServer c.server with
    | .error e => .error e
    | .ok _ => checkDatabase c.database

/-- Structure `Cli` from `cli.rs`: the parsed command-line arguments. `interval`
is a `u64` in the source, modelled as `Nat`. -/
structure Cli where
  config_file : String
  interval : Nat
  verbose : Bool
deriving DecidableEq, Repr

/-- Method `Cli::validate` from `cli.rs`: rejects a zero interval and an
interval above 3600 seconds, in that order. -/
def Cli.validate (c : Cli) : Except String Unit :=
  if c.interval = 0 then
    .error "Interval must be greater than 0 seconds"
  else if c.interval > 3600 then
    .error "Interval cannot exceed 3600 seconds (1 hour)"
  else
    .ok ()

/-- A JSON value, the input of the structural parse stage. Numbers are
modelled as `Int` (the configuration schema uses only integral fields). -/
inductive Json where
  | null
  | bool (b : Bool)
  | num (n : Int)
  | str (s : String)
  | arr (elems : List Json)
  | obj (fields : List (String × Json))

/-- Serde-derive deserializer for `ServerConfig`, per the field attributes
in `config.rs`: `host` and `port` required, `port` a `u16`, `enable_ssl`
defaulting to `default_true` when absent. -/
def deserializeServerConfig (j : Json) : Option ServerConfig := do
  match j with
  | .obj fields =>
    let host ← match fields.lookup "host" with
      | some (.str s) => some s
      | _ => none
    let port ← match fields.lookup "port" with
      | some (.num n) => if 0 ≤ n ∧ n ≤ 65535 then some n.toNat else none
      | _ => none
    let enable_ssl ← match fields.lookup "enable_ssl" with
      | some (.bool b) => some b
      | none => some default_true
      | _ => none
    some ⟨host, port, enable_ssl⟩
  | _ => none

/-- Serde-derive deserializer for `DatabaseConfig`, per the field
attributes in `config.rs`: `connection_string` required, `pool_size` a
`u32` defaulting to `default_pool_size`, `timeout_seconds` a `u64`
defaulting to `default_timeout`. -/
def deserializeDatabaseConfig (j : Json) : Option DatabaseConfig := do
  match j with
  | .obj fields =>
    let conn ← match fields.lookup "connection_string" with
      | some (.str s) => some s
      | _ => none
    let pool_size ← match fields.lookup "pool_size" with
      | some (.num n) => if 0 ≤ n ∧ n ≤ 4294967295 then some n.toNat else none
      | none => some default_pool_size
      | _ => none
    let timeout_seconds ← match fields.lookup "timeout_seconds" with
      | some (.num n) => if 0 ≤ n ∧ n ≤ 18446744073709551615 then some n.toNat else none
      | none => some default_timeout
      | _ => none
    some ⟨conn, pool_size, timeout_seconds⟩
  | _ => none

/-- Decodes the `features` object into an association list of booleans. -/
def decodeFeatures (fs : List (String × Json)) : Option (List (String × Bool)) :=
  fs.mapM fun p =>
    match p.2 with
    | .bool b => some (p.1, b)
    | _ => none

/-- Serde-derive deserializer for `AppConfig`, per the field attributes in
`config.rs`: `app_name` and `version` required strings; `environment`
defaulting to `default_environment`; `server` and `database` optional
(`Option` fields default to `none` when absent, and accept `null`);
`features` defaulting to the empty map. Unknown fields are ignored, as
serde does by default. -/
def deserializeAppConfig (j : Json) : Option AppConfig := do
  match j with
  | .obj fields =>
    let app_name ← match fields.lookup "app_name" with
      | some (.str s) => some s
      | _ => none
    let version ← match fields.lookup "version" with
      | some (.str s) => some s
      | _ => none
    let environment ← match fields.lookup "environment" with
      | some (.str s) => some s
      | none => some default_environment
      | _ => none
    let server ← match fields.lookup "server" with
      | some .null => some none
      | some js => (deserializeServerConfig js).map some
      | none => some none
    let database ← match fields.lookup "database" with
      | some .null => some none
      | some jd => (deserializeDatabaseConfig jd).map some
      | none => some none
    let features ← match fields.lookup "features" with
      | some (.obj fs) => decodeFeatures fs
      | none => some []
      | _ => none
    some ⟨app_name, version, environment, server, database, features⟩
  | _ => none

/-- What the filesystem presents to one `read_config` call: whether the
file exists, whether `read_to_string` succeeds, and the content as JSON
(`none` when the bytes are not well-formed JSON text). -/
structure FileView where
  fileExists : Bool
  readOk : Bool
  content : Option Json

/-- Method `ConfigWatcher::read_config` from `watcher.rs`: existence check, raw
read, structural parse (serde text parse plus derive deserialization,
both surfacing as a `serde_json::Error`, modelled as `invalidJson`),
then `AppConfig::validate`, each stage short-circuiting. -/
def read_config (f : FileView) : Except ConfigError AppConfig :=
  if !f.fileExists then
    .error .fileNotFound
  else if !f.readOk then
    .error .readError
  else
    match f.content with
    | none => .error .invalidJson
    | some j =>
      match deserializeAppConfig j with
      | none => .error .invalidJson
      | some config =>
        match config.validate with
        | .error e => .error e
        | .ok _ => .ok config

/-- The mutable state of `ConfigWatcher` from `watcher.rs`. `file_path`
and `check_interval` are immutable after construction; timestamps
(`SystemTime`) are modelled as `Nat`. -/
structure ConfigWatcher where
  file_path : String
  check_interval : Nat
  last_modified : Option Nat
  last_valid_config : Option AppConfig
deriving DecidableEq, Repr

/-- Constructor `ConfigWatcher::new`: both optionals start empty. -/
def ConfigWatcher.new (file_path : String) (check_interval_secs : Nat) : ConfigWatcher :=
  ⟨file_path, check_interval_secs, none, none⟩

/-- Method `ConfigWatcher::get_modified_time`: the filesystem either answers
with a timestamp or fails, which the method wraps as `MetadataError`. -/
def get_modified_time (answer : Option Nat) : Except ConfigError Nat :=
  match answer with
  | none => .error .metadataError
  | some t => .ok t

/-- Method `ConfigWatcher::has_changed`: queries the modification time and
compares it to `last_modified`; `none` stored means changed. -/
def has_changed (w : ConfigWatcher) (answer : Option Nat) : Except ConfigError Bool :=
  match get_modified_time answer with
  | .error e => .error e
  | .ok current_modified =>
    .ok (match w.last_modified with
      | some last => decide (last < current_modified)
      | none => true)

/-- The observable outcome of one tick of the watch loop, abstracting the
stdout and stderr messages of `watcher.rs`. -/
inductive Observation where
  | updated (c : AppConfig)
  | contentUnchanged
  | unchanged
  | reloadFailed (e : ConfigError)
  | checkError (e : ConfigError)
deriving DecidableEq, Repr

/-- The filesystem responses one tick of the watch loop can consume:
the `has_changed` metadata query, the file as seen by `read_config`, and
the second metadata query issued after a successful reload. -/
structure TickEnv where
  mtime1 : Option Nat
  file : FileView
  mtime2 : Option Nat

/-- One iteration of the `loop` in `ConfigWatcher::watch`. Returns the
updated watcher and the tick's observation, or `.error e` when `watch`
itself returns with error `e` (the `?` on the `get_modified_time` call
that follows a successful reload). On that error path neither field has
been assigned yet, so the watcher is returned unchanged. -/
def tick (w : ConfigWatcher) (env : TickEnv) : Except ConfigError (ConfigWatcher × Observation) :=
  match has_changed w env.mtime1 with
  | .error e => .ok (w, .checkError e)
  | .ok false => .ok (w, .unchanged)
  | .ok true =>
    match read_config env.file with
    | .error e => .ok (w, .reloadFailed e)
    | .ok config =>
      let obs := match w.last_valid_config with
        | some last_config => if last_config = config then .contentUnchanged else .updated config
        | none => Observation.updated config
      match get_modified_time env.mtime2 with
      | .error e => .error e
      | .ok t =>
        .ok ({ w with last_modified := some t, last_valid_config := some config }, obs)

/-- The filesystem responses the initial load in `ConfigWatcher::watch`
can consume: the file as seen by `read_config`, and the metadata query
issued after a successful load. -/
structure InitEnv where
  file : FileView
  mtime : Option Nat

/-- The initial load of `ConfigWatcher::watch` (before the loop): an
unconditional `read_config`; on success the timestamp is recorded (the
`?` on that query can terminate `watch`) and the config stored; on
failure the state is left untouched and the loop is entered anyway. -/
def initialLoad (w : ConfigWatcher) (env : InitEnv) : Except ConfigError ConfigWatcher :=
  match read_config env.file with
  | .ok config =>
    match get_modified_time env.mtime with
    | .error e => .error e
    | .ok t => .ok { w with last_modified := some t, last_valid_config := some config }
  | .error _ => .ok w

/-- Runs the watch loop over a finite prefix of filesystem responses.
Returns the final watcher state, the observations emitted in order, and
`some e` when a tick made `watch` return with error `e` (the remaining
environments are then never consumed). -/
def runTicks (w : ConfigWatcher) (envs : List TickEnv) :
    ConfigWatcher × List Observation × Option ConfigError :=
  match envs with
  | [] => (w, [], none)
  | env :: rest =>
    match tick w env with
    | .ok (w2, obs) =>
      let r := runTicks w2 rest
      (r.1, obs :: r.2.1, r.2.2)
    | .error e => (w, [], some e)

/-- Function modelling `ConfigWatcher::watch` over a finite prefix of filesystem responses:
the initial load, then one tick per environment. -/
def runWatch (w : ConfigWatcher) (ienv : InitEnv) (envs : List TickEnv) :
    ConfigWatcher × List Observation × Option ConfigError :=
  match initialLoad w ienv with
  | .ok w1 => runTicks w1 envs
  | .error e => (w, [], some e)


theorem whitespace_only_trim_isEmpty (s : String) (h : ∀ c ∈ s.data, c.isWhitespace) :
    (RustStr.trim s).data.isEmpty = true := by
  have h1 : s.data.dropWhile Char.isWhitespace = [] :=
    List.dropWhile_eq_nil_iff.mpr h
  simp [RustStr.trim, h1]

theorem checkServer_ok_iff (s : Option ServerConfig) :
    checkServer s = .ok () ↔
      ∀ sv, s = some sv → ((RustStr.trim sv.host).data.isEmpty = false ∧ 0 < sv.port) := by
  cases s with
  | none => simp [checkServer]
  | some sv =>
    simp only [checkServer, Option.some.injEq]
    constructor
    · intro h sv2 hsv2
      subst hsv2
      by_cases h1 : (RustStr.trim sv.host).data.isEmpty = true
      · simp [h1] at h
      · by_cases h2 : sv.port = 0
        · simp [h1, h2] at h
        · exact ⟨by simpa using h1, Nat.pos_of_ne_zero h2⟩
    · intro h
      obtain ⟨h1, h2⟩ := h sv rfl
      simp [h1, Nat.pos_iff_ne_zero.mp h2]

theorem checkDatabase_ok_iff (d : Option DatabaseConfig) :
    checkDatabase d = .ok () ↔
      ∀ db, d = some db →
        ((RustStr.trim db.connection_string).data.isEmpty = false ∧ 0 < db.pool_size) := by
  cases d with
  | none => simp [checkDatabase]
  | some db =>
    simp only [checkDatabase, Option.some.injEq]
    constructor
    · intro h db2 hdb2
      subst hdb2
      by_cases h1 : (RustStr.trim db.connection_string).data.isEmpty = true
      · simp [h1] at h
      · by_cases h2 : db.pool_size = 0
        · simp [h1, h2] at h
        · exact ⟨by simpa using h1, Nat.pos_of_ne_zero h2⟩
    · intro h
      obtain ⟨h1, h2⟩ := h db rfl
      simp [h1, Nat.pos_iff_ne_zero.mp h2]

theorem validate_ok_iff (c : AppConfig) :
    c.validate = .ok () ↔
      ((RustStr.trim c.app_name).data.isEmpty = false ∧
       RustStr.contains c.version '.' = true ∧
       valid_envs.contains c.environment = true ∧
       (∀ sv, c.server = some sv → ((RustStr.trim sv.host).data.isEmpty = false ∧ 0 < sv.port)) ∧
       (∀ db, c.database = some db →
         ((RustStr.trim db.connection_string).data.isEmpty = false ∧ 0 < db.pool_size))) := by
  unfold AppConfig.validate
  constructor
  · intro h
    by_cases h1 : (RustStr.trim c.app_name).data.isEmpty = true
    · rw [if_pos h1] at h
      exact absurd h (by simp)
    rw [if_neg h1] at h
    by_cases h2 : (!RustStr.contains c.version '.') = true
    · rw [if_pos h2] at h
      exact absurd h (by simp)
    rw [if_neg h2] at h
    by_cases h3 : (!valid_envs.contains c.environment) = true
    · rw [if_pos h3] at h
      exact absurd h (by simp)
    rw [if_neg h3] at h
    cases hs : checkServer c.server with
    | error e =>
      rw [hs] at h
      exact absurd h (by simp)
    | ok u =>
      rw [hs] at h
      cases u
      exact ⟨by simpa using h1, by simpa using h2, by simpa using h3,
        (checkServer_ok_iff c.server).mp hs, (checkDatabase_ok_iff c.database).mp h⟩
  · rintro ⟨h1, h2, h3, h4, h5⟩
    rw [if_neg (by rw [h1]; decide), if_neg (by rw [h2]; decide), if_neg (by rw [h3]; decide),
      (checkServer_ok_iff c.server).mpr h4]
    exact (checkDatabase_ok_iff c.database).mpr h5

theorem checkServer_shape (s : Option ServerConfig) :
    checkServer s = .ok () ∨ ∃ r, checkServer s = .error (.validationFailed r) := by
  cases s with
  | none => exact Or.inl rfl
  | some sv =>
    simp only [checkServer]
    split_ifs with h1 h2
    · exact Or.inr ⟨_, rfl⟩
    · exact Or.inr ⟨_, rfl⟩
    · exact Or.inl rfl

theorem checkDatabase_shape (d : Option DatabaseConfig) :
    checkDatabase d = .ok () ∨ ∃ r, checkDatabase d = .error (.validationFailed r) := by
  cases d with
  | none => exact Or.inl rfl
  | some db =>
    simp only [checkDatabase]
    split_ifs with h1 h2
    · exact Or.inr ⟨_, rfl⟩
    · exact Or.inr ⟨_, rfl⟩
    · exact Or.inl rfl

theorem validate_shape (c : AppConfig) :
    c.validate = .ok () ∨ ∃ r, c.validate = .error (.validationFailed r) := by
  unfold AppConfig.validate
  split_ifs with h1 h2 h3
  · exact Or.inr ⟨_, rfl⟩
  · exact Or.inr ⟨_, rfl⟩
  · exact Or.inr ⟨_, rfl⟩
  · cases hs : checkServer c.server with
    | error e =>
      rcases checkServer_shape c.server with hok | ⟨r, hr⟩
      · rw [hs] at hok
        exact absurd hok (by simp)
      · rw [hs] at hr
        exact Or.inr ⟨r, hr⟩
    | ok u =>
      cases u
      exact checkDatabase_shape c.database

/-- Claim C6 counterexample: the configuration with a whitespace-only
`app_name`, version `1.0`, environment `development` and no optional
blocks satisfies every condition of the claim (`app_name` non-empty,
version contains a dot, environment allowed), yet `validate` returns a
`ValidationFailed` error, because the code trims `app_name` before
testing emptiness. -/
theorem c6_validate_counterexample :
    (AppConfig.mk " " "1.0" "development" none none []).app_name ≠ "" ∧
    RustStr.contains (AppConfig.mk " " "1.0" "development" none none []).version '.' = true ∧
    (AppConfig.mk " " "1.0" "development" none none []).environment = "development" ∧
    (AppConfig.mk " " "1.0" "development" none none []).server = none ∧
    (AppConfig.mk " " "1.0" "development" none none []).database = none ∧
    (AppConfig.mk " " "1.0" "development" none none []).validate =
      .error (.validationFailed "app_name cannot be empty") := by
  refine ⟨by decide, rfl, rfl, rfl, rfl, rfl⟩

/-- Claim C6 (amended): `AppConfig::validate` returns `Ok` exactly when
`app_name` is non-empty after trimming whitespace, `version` contains at
least one dot, `environment` is one of development, staging, production,
the server block (if present) has a host that is non-empty after
trimming and a port greater than 0, and the database block (if present)
has a connection string that is non-empty after trimming and a pool size
greater than 0; otherwise it returns a `ValidationFailed` error. -/
theorem c6_validate_characterization (c : AppConfig) :
    (c.validate = .ok () ↔
      ((RustStr.trim c.app_name).data.isEmpty = false ∧
       RustStr.contains c.version '.' = true ∧
       valid_envs.contains c.environment = true ∧
       (∀ sv, c.server = some sv → ((RustStr.trim sv.host).data.isEmpty = false ∧ 0 < sv.port)) ∧
       (∀ db, c.database = some db →
         ((RustStr.trim db.connection_string).data.isEmpty = false ∧ 0 < db.pool_size)))) ∧
    (c.validate ≠ .ok () → ∃ r, c.validate = .error (.validationFailed r)) := by
  refine ⟨validate_ok_iff c, fun h => ?_⟩
  rcases validate_shape c with hok | he
  · exact absurd hok h
  · exact he

/-- Witness for C6: the amended characterization evaluated at a concrete
configuration with an empty `app_name`. -/
theorem c6_validate_characterization_witness :
    ∃ r, (AppConfig.mk "" "1.0.0" "development" none none []).validate =
      .error (.validationFailed r) := by
  refine (c6_validate_characterization (AppConfig.mk "" "1.0.0" "development" none none [])).2 ?_
  intro h
  exact Except.noConfusion h

/-- Claim C10: validation trims whitespace before testing emptiness, so a
configuration whose `app_name`, `server.host`, or
`database.connection_string` consists only of whitespace characters is
rejected with a `ValidationFailed` error. -/
theorem c10_whitespace_only_rejected (c : AppConfig)
    (h : (∀ ch ∈ c.app_name.data, ch.isWhitespace) ∨
         (∃ sv, c.server = some sv ∧ ∀ ch ∈ sv.host.data, ch.isWhitespace) ∨
         (∃ db, c.database = some db ∧ ∀ ch ∈ db.connection_string.data, ch.isWhitespace)) :
    ∃ r, c.validate = .error (.validationFailed r) := by
  rcases validate_shape c with hok | he
  · exfalso
    obtain ⟨h1, h2, h3, h4, h5⟩ := (validate_ok_iff c).mp hok
    rcases h with hw | ⟨sv, hsv, hw⟩ | ⟨db, hdb, hw⟩
    · rw [whitespace_only_trim_isEmpty _ hw] at h1
      exact Bool.noConfusion h1
    · have hh := (h4 sv hsv).1
      rw [whitespace_only_trim_isEmpty _ hw] at hh
      exact Bool.noConfusion hh
    · have hh := (h5 db hdb).1
      rw [whitespace_only_trim_isEmpty _ hw] at hh
      exact Bool.noConfusion hh
  · exact he

/-- Witness for C10: a whitespace-only `app_name` (three spaces and a
tab) is rejected. -/
theorem c10_whitespace_only_rejected_witness :
    ∃ r, (AppConfig.mk "   \t" "1.0" "development" none none []).validate =
      .error (.validationFailed r) :=
  c10_whitespace_only_rejected (AppConfig.mk "   \t" "1.0" "development" none none [])
    (Or.inl (by decide))

/-- Claim C9: `Cli::validate` accepts an interval exactly when it lies in
the range 1 to 3600 inclusive, and returns an error for interval 0 and
for every interval greater than 3600. -/
theorem c9_cli_validate_interval (c : Cli) :
    (c.validate = .ok () ↔ (1 ≤ c.interval ∧ c.interval ≤ 3600)) ∧
    (c.interval = 0 → ∃ msg, c.validate = .error msg) ∧
    (3600 < c.interval → ∃ msg, c.validate = .error msg) := by
  unfold Cli.validate
  refine ⟨?_, ?_, ?_⟩
  · split_ifs with h1 h2
    · constructor
      · intro h
        exact h.elim
      · intro h
        exfalso
        omega
    · constructor
      · intro h
        exact h.elim
      · intro h
        exfalso
        omega
    · constructor
      · intro h
        omega
      · intro h
        rfl
  · intro h
    rw [if_pos h]
    exact ⟨_, rfl⟩
  · intro h
    rw [if_neg (by omega), if_pos h]
    exact ⟨_, rfl⟩

/-- Witness for C9: interval 0 is rejected, interval 3601 is rejected,
and interval 2 (the CLI default) is accepted. -/
theorem c9_cli_validate_interval_witness :
    (∃ msg, (Cli.mk "config.json" 0 false).validate = .error msg) ∧
    (∃ msg, (Cli.mk "config.json" 3601 false).validate = .error msg) ∧
    (Cli.mk "config.json" 2 false).validate = .ok () :=
  ⟨(c9_cli_validate_interval (Cli.mk "config.json" 0 false)).2.1 rfl,
   (c9_cli_validate_interval (Cli.mk "config.json" 3601 false)).2.2 (by decide),
   (c9_cli_validate_interval (Cli.mk "config.json" 2 false)).1.mpr (by decide)⟩

/-- Claim C3: `has_changed` reports the file as changed exactly when no
prior timestamp is stored or the queried modification timestamp is
strictly greater than the stored one; with a stored timestamp `t1` and a
current timestamp `t2 ≤ t1` it reports unchanged, whatever the stored
configuration (content is never consulted). -/
theorem c3_has_changed_iff (w : ConfigWatcher) (t2 : Nat) :
    (has_changed w (some t2) = .ok true ↔
      (w.last_modified = none ∨ ∃ t1, w.last_modified = some t1 ∧ t1 < t2)) ∧
    (has_changed w (some t2) = .ok false ↔
      (∃ t1, w.last_modified = some t1 ∧ t2 ≤ t1)) := by
  unfold has_changed get_modified_time
  cases hlm : w.last_modified with
  | none => simp
  | some t1 =>
    simp only [Except.ok.injEq, decide_eq_true_eq, Option.some.injEq, reduceCtorEq, false_or]
    constructor
    · constructor
      · intro h
        exact ⟨t1, rfl, h⟩
      · rintro ⟨t0, ht0, h⟩
        cases ht0
        exact h
    · constructor
      · intro h
        refine ⟨t1, rfl, ?_⟩
        by_contra hc
        simp [Nat.lt_of_not_le hc] at h
      · rintro ⟨t0, ht0, h⟩
        cases ht0
        simp [Nat.not_lt_of_le h]

/-- Claim C7: for every input document that omits the optional fields,
deserialization fills in the stated defaults: `environment` becomes
`development` and `features` the empty map; a server block without
`enable_ssl` gets `enable_ssl = true`; a database block without
`pool_size` or `timeout_seconds` gets pool size 10 and timeout 30. -/
theorem c7_deserialize_defaults :
    (∀ fields name ver,
      List.lookup "app_name" fields = some (.str name) →
      List.lookup "version" fields = some (.str ver) →
      List.lookup "environment" fields = none →
      List.lookup "server" fields = none →
      List.lookup "database" fields = none →
      List.lookup "features" fields = none →
      deserializeAppConfig (.obj fields) = some ⟨name, ver, "development", none, none, []⟩) ∧
    (∀ fields host port,
      List.lookup "host" fields = some (.str host) →
      List.lookup "port" fields = some (.num port) →
      0 ≤ port → port ≤ 65535 →
      List.lookup "enable_ssl" fields = none →
      deserializeServerConfig (.obj fields) = some ⟨host, port.toNat, true⟩) ∧
    (∀ fields conn,
      List.lookup "connection_string" fields = some (.str conn) →
      List.lookup "pool_size" fields = none →
      List.lookup "timeout_seconds" fields = none →
      deserializeDatabaseConfig (.obj fields) = some ⟨conn, 10, 30⟩) := by
  refine ⟨?_, ?_, ?_⟩
  · intro fields name ver h1 h2 h3 h4 h5 h6
    simp [deserializeAppConfig, h1, h2, h3, h4, h5, h6, default_environment]
  · intro fields host port h1 h2 hp1 hp2 h3
    simp [deserializeServerConfig, h1, h2, h3, hp1, hp2, default_true]
  · intro fields conn h1 h2 h3
    simp [deserializeDatabaseConfig, h1, h2, h3, default_pool_size, default_timeout]

/-- Witness for C7: the minimal document of the spec scenario, a server
block with only host and port, and a database block with only a
connection string, each get the defaults. -/
theorem c7_deserialize_defaults_witness :
    deserializeAppConfig (.obj [("app_name", Json.str "TestApp"), ("version", Json.str "1.0.0")]) =
      some ⟨"TestApp", "1.0.0", "development", none, none, []⟩ ∧
    deserializeServerConfig (.obj [("host", Json.str "localhost"), ("port", Json.num 8080)]) =
      some ⟨"localhost", 8080, true⟩ ∧
    deserializeDatabaseConfig (.obj [("connection_string", Json.str "postgres://localhost/db")]) =
      some ⟨"postgres://localhost/db", 10, 30⟩ :=
  ⟨c7_deserialize_defaults.1 _ "TestApp" "1.0.0" rfl rfl rfl rfl rfl rfl,
   c7_deserialize_defaults.2.1 _ "localhost" 8080 rfl rfl (by decide) (by decide) rfl,
   c7_deserialize_defaults.2.2 _ "postgres://localhost/db" rfl rfl rfl⟩

/-- The four pipeline stages of the spec: existence check, raw read,
structural parse, business-rule validation, in that order. -/
inductive Stage where
  | existence
  | readRaw
  | structuralParse
  | businessValidation
deriving DecidableEq, Repr

/-- The stage each error kind of the taxonomy identifies: `NotFound` the
existence check, `ReadFailure` the raw read, `MalformedStructure` the
structural parse, `ValidationFailed` the business rules.
`MetadataUnavailable` belongs to no pipeline stage. -/
def errorStage : ConfigError → Option Stage
  | .fileNotFound => some .existence
  | .readError => some .readRaw
  | .invalidJson => some .structuralParse
  | .validationFailed _ => some .businessValidation
  | .metadataError => none

/-- The first failing stage of the pipeline, following the order stated
by the spec: existence, then read, then parse, then validation; `none`
when every stage succeeds. -/
def specFirstFailingStage (f : FileView) : Option Stage :=
  if !f.fileExists then some .existence
  else if !f.readOk then some .readRaw
  else
    match f.content with
    | none => some .structuralParse
    | some j =>
      match deserializeAppConfig j with
      | none => some .structuralParse
      | some c =>
        match c.validate with
        | .error _ => some .businessValidation
        | .ok _ => none

/-- Claim C8: `read_config` performs the stages in the spec order, each
short-circuiting with its distinct error kind: every error it produces
identifies the first failing stage, and it succeeds exactly when no
stage fails. -/
theorem c8_pipeline_stage_order (f : FileView) :
    (∀ e, read_config f = .error e → errorStage e = specFirstFailingStage f) ∧
    ((∃ c, read_config f = .ok c) ↔ specFirstFailingStage f = none) := by
  rcases f with ⟨fe, ro, ct⟩
  cases fe with
  | false =>
    refine ⟨fun e he => ?_, ?_⟩
    · cases he
      rfl
    · constructor
      · rintro ⟨c, hc⟩
        exact Except.noConfusion hc
      · intro h
        exact Option.noConfusion h
  | true =>
    cases ro with
    | false =>
      refine ⟨fun e he => ?_, ?_⟩
      · cases he
        rfl
      · constructor
        · rintro ⟨c, hc⟩
          exact Except.noConfusion hc
        · intro h
          exact Option.noConfusion h
    | true =>
      cases ct with
      | none =>
        refine ⟨fun e he => ?_, ?_⟩
        · cases he
          rfl
        · constructor
          · rintro ⟨c, hc⟩
            exact Except.noConfusion hc
          · intro h
            exact Option.noConfusion h
      | some j =>
        cases hd : deserializeAppConfig j with
        | none =>
          refine ⟨fun e he => ?_, ?_⟩
          · simp only [read_config, hd, Bool.not_true, Bool.false_eq_true, if_false,
              Except.error.injEq] at he
            subst he
            simp [specFirstFailingStage, hd, errorStage]
          · constructor
            · rintro ⟨c, hc⟩
              simp [read_config, hd] at hc
            · intro h
              simp [specFirstFailingStage, hd] at h
        | some c0 =>
          cases hv : c0.validate with
          | error e0 =>
            rcases validate_shape c0 with hok | ⟨r, hr⟩
            · rw [hv] at hok
              exact absurd hok (by simp)
            · rw [hv] at hr
              injection hr with hr2
              subst hr2
              refine ⟨fun e he => ?_, ?_⟩
              · simp only [read_config, hd, hv, Bool.not_true, Bool.false_eq_true, if_false,
                  Except.error.injEq] at he
                subst he
                simp [specFirstFailingStage, hd, hv, errorStage]
              · constructor
                · rintro ⟨c, hc⟩
                  simp [read_config, hd, hv] at hc
                · intro h
                  simp [specFirstFailingStage, hd, hv] at h
          | ok u =>
            refine ⟨fun e he => ?_, ?_⟩
            · simp [read_config, hd, hv] at he
            · constructor
              · intro h
                simp [specFirstFailingStage, hd, hv]
              · intro h
                exact ⟨c0, by simp [read_config, hd, hv]⟩

/-- Witness for C8: a missing file fails at the existence stage with
`FileNotFound`, and a well-formed valid document passes every stage. -/
theorem c8_pipeline_stage_order_witness :
    errorStage .fileNotFound = specFirstFailingStage ⟨false, true, none⟩ ∧
    (∃ c, read_config ⟨true, true,
      some (.obj [("app_name", Json.str "TestApp"), ("version", Json.str "1.0.0")])⟩ = .ok c) :=
  ⟨(c8_pipeline_stage_order ⟨false, true, none⟩).1 .fileNotFound rfl,
   (c8_pipeline_stage_order ⟨true, true,
      some (.obj [("app_name", Json.str "TestApp"), ("version", Json.str "1.0.0")])⟩).2.mpr rfl⟩

/-- Claim C1 counterexample: a tick in which change detection fires, the
read+parse+validate attempt succeeds, and the follow-up
modification-timestamp query fails, makes the watch loop return with the
taxonomy error `MetadataUnavailable` instead of converting it into an
observation: `runTicks` stops with `some ConfigError.metadataError` and
emits no observation for that tick. -/
theorem c1_watch_error_counterexample :
    runTicks (ConfigWatcher.new "config.json" 2)
      [⟨some 1,
        ⟨true, true, some (.obj [("app_name", Json.str "TestApp"), ("version", Json.str "1.0.0")])⟩,
        none⟩] =
      (ConfigWatcher.new "config.json" 2, [], some ConfigError.metadataError) := rfl

/-- Claim C1 (amended): every error arising inside a tick is converted
into an observation and the loop continues, with one exception: a tick
terminates the loop exactly when change detection fired, the
read+parse+validate attempt succeeded, and the modification-timestamp
re-query issued right after the successful reload failed; the error that
then escapes `watch` is always `MetadataUnavailable`. -/
theorem c1_tick_error_characterization (w : ConfigWatcher) (env : TickEnv) :
    ((∃ e, tick w env = .error e) ↔
      (has_changed w env.mtime1 = .ok true ∧
       (∃ c, read_config env.file = .ok c) ∧ env.mtime2 = none)) ∧
    (∀ e, tick w env = .error e → e = .metadataError) := by
  unfold tick
  cases hc : has_changed w env.mtime1 with
  | error e0 =>
    constructor
    · constructor
      · rintro ⟨e, he⟩
        exact Except.noConfusion he
      · rintro ⟨h1, h2⟩
        exact Except.noConfusion h1
    · intro e he
      exact Except.noConfusion he
  | ok b =>
    cases b with
    | false =>
      constructor
      · constructor
        · rintro ⟨e, he⟩
          exact Except.noConfusion he
        · rintro ⟨h1, h2⟩
          exact absurd h1 (by simp)
      · intro e he
        exact Except.noConfusion he
    | true =>
      cases hr : read_config env.file with
      | error e1 =>
        constructor
        · constructor
          · rintro ⟨e, he⟩
            exact Except.noConfusion he
          · rintro ⟨h1, ⟨c, hc2⟩, h3⟩
            exact Except.noConfusion hc2
        · intro e he
          exact Except.noConfusion he
      | ok c0 =>
        cases hm : env.mtime2 with
        | none =>
          constructor
          · constructor
            · intro h
              exact ⟨rfl, ⟨c0, rfl⟩, rfl⟩
            · intro h
              exact ⟨.metadataError, rfl⟩
          · intro e he
            injection he with he2
            exact he2.symm
        | some t2 =>
          constructor
          · constructor
            · rintro ⟨e, he⟩
              exact Except.noConfusion he
            · rintro ⟨h1, h2, h3⟩
              exact Option.noConfusion h3
          · intro e he
            exact Except.noConfusion he

/-- Witness for C1: the characterization applied to a concrete tick whose
post-reload timestamp query fails, yielding a terminating error. -/
theorem c1_tick_error_characterization_witness :
    ∃ e, tick (ConfigWatcher.new "config.json" 2)
      ⟨some 1,
       ⟨true, true, some (.obj [("app_name", Json.str "TestApp"), ("version", Json.str "1.0.0")])⟩,
       none⟩ = .error e :=
  (c1_tick_error_characterization (ConfigWatcher.new "config.json" 2)
      ⟨some 1,
       ⟨true, true, some (.obj [("app_name", Json.str "TestApp"), ("version", Json.str "1.0.0")])⟩,
       none⟩).1.mpr
    ⟨rfl, ⟨⟨"TestApp", "1.0.0", "development", none, none, []⟩, rfl⟩, rfl⟩

/-- A tick whose timestamp query fails or whose read+parse+validate
attempt does not succeed leaves the watcher state exactly as it was and
continues the loop. -/
theorem tick_load_failure_state (w : ConfigWatcher) (env : TickEnv)
    (hfail : env.mtime1 = none ∨ (read_config env.file).isOk = false) :
    ∃ obs, tick w env = .ok (w, obs) := by
  unfold tick
  cases hc : has_changed w env.mtime1 with
  | error e => exact ⟨_, rfl⟩
  | ok b =>
    cases b with
    | false => exact ⟨_, rfl⟩
    | true =>
      cases hr : read_config env.file with
      | error e => exact ⟨_, rfl⟩
      | ok c =>
        rcases hfail with hfail | hfail
        · rw [hfail] at hc
          exact Except.noConfusion hc
        · rw [hr] at hfail
          exact absurd hfail (by simp [Except.isOk, Except.toBool])

/-- Claim C2: once `last_valid_config` holds a value, a sequence of ticks
whose load attempts all fail (file missing, read error, malformed JSON,
or validation failure) or that do not reload at all (unchanged file,
failed timestamp check) never changes `last_valid_config`. -/
theorem c2_monotonic_fallback (w : ConfigWatcher) (envs : List TickEnv) (cfg : AppConfig)
    (hstored : w.last_valid_config = some cfg)
    (hfail : ∀ env ∈ envs, env.mtime1 = none ∨ (read_config env.file).isOk = false) :
    (runTicks w envs).1.last_valid_config = some cfg := by
  induction envs generalizing w with
  | nil => simpa [runTicks] using hstored
  | cons env rest ih =>
    obtain ⟨obs, hobs⟩ := tick_load_failure_state w env (hfail env (by simp))
    unfold runTicks
    rw [hobs]
    exact ih w hstored (fun e he => hfail e (by simp [he]))

/-- Witness for C2: a stored configuration survives a missing file, a
malformed document, a document that fails validation, and a failed
timestamp check over a file that would have loaded fine. -/
theorem c2_monotonic_fallback_witness :
    (runTicks
      ⟨"config.json", 2, some 10, some ⟨"TestApp", "1.0.0", "production", none, none, []⟩⟩
      [⟨some 11, ⟨false, true, none⟩, some 11⟩,
       ⟨some 12, ⟨true, true, none⟩, some 12⟩,
       ⟨some 13, ⟨true, true, some (.obj [("app_name", Json.str ""), ("version", Json.str "2.0.0")])⟩, some 13⟩,
       ⟨none, ⟨true, true, some (.obj [("app_name", Json.str "Other"), ("version", Json.str "3.0.0")])⟩, some 14⟩]).1.last_valid_config =
      some ⟨"TestApp", "1.0.0", "production", none, none, []⟩ :=
  c2_monotonic_fallback
    ⟨"config.json", 2, some 10, some ⟨"TestApp", "1.0.0", "production", none, none, []⟩⟩
    [⟨some 11, ⟨false, true, none⟩, some 11⟩,
     ⟨some 12, ⟨true, true, none⟩, some 12⟩,
     ⟨some 13, ⟨true, true, some (.obj [("app_name", Json.str ""), ("version", Json.str "2.0.0")])⟩, some 13⟩,
     ⟨none, ⟨true, true, some (.obj [("app_name", Json.str "Other"), ("version", Json.str "3.0.0")])⟩, some 14⟩]
    ⟨"TestApp", "1.0.0", "production", none, none, []⟩ rfl (by decide)

/-- Everything `read_config` returns with `.ok` has passed `validate`. -/
theorem read_config_ok_validated (f : FileView) (c : AppConfig)
    (h : read_config f = .ok c) : c.validate = .ok () := by
  rcases f with ⟨fe, ro, ct⟩
  cases fe with
  | false => exact absurd h (by simp [read_config])
  | true =>
    cases ro with
    | false => exact absurd h (by simp [read_config])
    | true =>
      cases ct with
      | none => exact absurd h (by simp [read_config])
      | some j =>
        cases hd : deserializeAppConfig j with
        | none => exact absurd h (by simp [read_config, hd])
        | some c0 =>
          cases hv : c0.validate with
          | error e => exact absurd h (by simp [read_config, hd, hv])
          | ok u =>
            have hc0 : c0 = c := by
              have h2 := h
              simp only [read_config, hd, hv, Bool.not_true, Bool.false_eq_true, if_false,
                Except.ok.injEq] at h2
              exact h2
            cases u
            rw [← hc0]
            exact hv

/-- A tick preserves the invariant that any stored configuration has
passed `validate`. -/
theorem tick_preserves_validated (w : ConfigWatcher) (env : TickEnv)
    (hinv : ∀ c, w.last_valid_config = some c → c.validate = .ok ())
    (w2 : ConfigWatcher) (obs : Observation) (htick : tick w env = .ok (w2, obs)) :
    ∀ c, w2.last_valid_config = some c → c.validate = .ok () := by
  unfold tick at htick
  cases hc : has_changed w env.mtime1 with
  | error e =>
    rw [hc] at htick
    cases htick
    exact hinv
  | ok b =>
    rw [hc] at htick
    cases b with
    | false =>
      cases htick
      exact hinv
    | true =>
      cases hr : read_config env.file with
      | error e =>
        rw [hr] at htick
        cases htick
        exact hinv
      | ok c0 =>
        rw [hr] at htick
        cases hm : env.mtime2 with
        | none =>
          rw [hm] at htick
          exact Except.noConfusion htick
        | some t2 =>
          rw [hm] at htick
          cases htick
          intro c hcc
          simp only [Option.some.injEq] at hcc
          rw [← hcc]
          exact read_config_ok_validated env.file c0 hr

/-- Lemma: `runTicks` preserves the stored-configuration invariant. -/
theorem runTicks_preserves_validated (envs : List TickEnv) (w : ConfigWatcher)
    (hinv : ∀ c, w.last_valid_config = some c → c.validate = .ok ()) :
    ∀ c, (runTicks w envs).1.last_valid_config = some c → c.validate = .ok () := by
  induction envs generalizing w with
  | nil => simpa [runTicks] using hinv
  | cons env rest ih =>
    unfold runTicks
    cases ht : tick w env with
    | ok p =>
      exact ih p.1 (tick_preserves_validated w env hinv p.1 p.2 (by rw [ht]))
    | error e =>
      simpa using hinv

/-- The initial load preserves the stored-configuration invariant. -/
theorem initialLoad_preserves_validated (w : ConfigWatcher) (ienv : InitEnv)
    (hinv : ∀ c, w.last_valid_config = some c → c.validate = .ok ())
    (w2 : ConfigWatcher) (hload : initialLoad w ienv = .ok w2) :
    ∀ c, w2.last_valid_config = some c → c.validate = .ok () := by
  unfold initialLoad at hload
  cases hr : read_config ienv.file with
  | error e =>
    rw [hr] at hload
    cases hload
    exact hinv
  | ok c0 =>
    rw [hr] at hload
    cases hm : ienv.mtime with
    | none =>
      rw [hm] at hload
      exact Except.noConfusion hload
    | some t =>
      rw [hm] at hload
      cases hload
      intro c hcc
      simp only [Option.some.injEq] at hcc
      rw [← hcc]
      exact read_config_ok_validated ienv.file c0 hr

/-- Claim C4: in every state the watch loop can reach from a fresh
watcher, `last_valid_config` is either empty or holds a configuration
that passes `validate`: stored values have passed both structural
parsing and business-rule validation. -/
theorem c4_stored_config_validated (path : String) (secs : Nat) (ienv : InitEnv)
    (envs : List TickEnv) (cfg : AppConfig)
    (h : (runWatch (ConfigWatcher.new path secs) ienv envs).1.last_valid_config = some cfg) :
    cfg.validate = .ok () := by
  unfold runWatch at h
  cases hl : initialLoad (ConfigWatcher.new path secs) ienv with
  | ok w1 =>
    rw [hl] at h
    refine runTicks_preserves_validated envs w1 ?_ cfg h
    exact initialLoad_preserves_validated (ConfigWatcher.new path secs) ienv
      (fun c hc => Option.noConfusion hc) w1 hl
  | error e =>
    rw [hl] at h
    exact absurd h (by simp [ConfigWatcher.new])

/-- Witness for C4: after a successful initial load of the minimal valid
document, the stored configuration passes `validate`. -/
theorem c4_stored_config_validated_witness :
    AppConfig.validate ⟨"TestApp", "1.0.0", "development", none, none, []⟩ = .ok () :=
  c4_stored_config_validated "config.json" 2
    ⟨⟨true, true, some (.obj [("app_name", Json.str "TestApp"), ("version", Json.str "1.0.0")])⟩,
      some 1⟩
    [] ⟨"TestApp", "1.0.0", "development", none, none, []⟩ rfl

/-- Claim C5 counterexample: with stored timestamp 10, a change detected
at timestamp 20 and a successful reload, the post-reload re-query can
return timestamp 5, and the tick then stores `last_modified = some 5`,
strictly smaller than the previously stored 10: `last_modified` moved
backward in time. -/
theorem c5_last_modified_counterexample :
    tick ⟨"config.json", 2, some 10, some ⟨"TestApp", "1.0.0", "development", none, none, []⟩⟩
        ⟨some 20,
         ⟨true, true, some (.obj [("app_name", Json.str "TestApp"), ("version", Json.str "1.0.0")])⟩,
         some 5⟩ =
      .ok (⟨"config.json", 2, some 5, some ⟨"TestApp", "1.0.0", "development", none, none, []⟩⟩,
        .contentUnchanged) ∧ (5 : Nat) < 10 :=
  ⟨rfl, by decide⟩

/-- Claim C5 (amended): provided the timestamp returned by the
post-reload re-query is at least the one that triggered change
detection, `last_modified` only moves forward: a successful tick either
leaves it unchanged, sets it for the first time, or replaces it with a
timestamp greater than or equal to (in fact strictly greater than) the
stored one. Without that proviso the re-query can move it backward. -/
theorem c5_last_modified_monotone (w : ConfigWatcher) (env : TickEnv)
    (w2 : ConfigWatcher) (obs : Observation)
    (hre : ∀ t1 t2, env.mtime1 = some t1 → env.mtime2 = some t2 → t1 ≤ t2)
    (htick : tick w env = .ok (w2, obs)) :
    w2.last_modified = w.last_modified ∨ w.last_modified = none ∨
      ∃ told tnew, w.last_modified = some told ∧ w2.last_modified = some tnew ∧ told ≤ tnew := by
  unfold tick at htick
  cases hc : has_changed w env.mtime1 with
  | error e =>
    rw [hc] at htick
    cases htick
    exact Or.inl rfl
  | ok b =>
    rw [hc] at htick
    cases b with
    | false =>
      cases htick
      exact Or.inl rfl
    | true =>
      cases hr : read_config env.file with
      | error e =>
        rw [hr] at htick
        cases htick
        exact Or.inl rfl
      | ok c0 =>
        rw [hr] at htick
        cases hm : env.mtime2 with
        | none =>
          rw [hm] at htick
          exact Except.noConfusion htick
        | some t2 =>
          rw [hm] at htick
          cases htick
          cases hlm : w.last_modified with
          | none => exact Or.inr (Or.inl rfl)
          | some t1old =>
            refine Or.inr (Or.inr ⟨t1old, t2, rfl, rfl, ?_⟩)
            unfold has_changed get_modified_time at hc
            cases hq : env.mtime1 with
            | none =>
              rw [hq] at hc
              exact Except.noConfusion hc
            | some tq =>
              rw [hq, hlm] at hc
              simp only [Except.ok.injEq, decide_eq_true_eq] at hc
              have h1 := hre tq t2 hq hm
              omega

/-- Witness for C5: the amended statement applied to a tick that detects
no change, where `last_modified` stays untouched. -/
theorem c5_last_modified_monotone_witness :
    (ConfigWatcher.mk "config.json" 2 (some 10) none).last_modified =
        (ConfigWatcher.mk "config.json" 2 (some 10) none).last_modified ∨
      (ConfigWatcher.mk "config.json" 2 (some 10) none).last_modified = none ∨
      ∃ told tnew, (ConfigWatcher.mk "config.json" 2 (some 10) none).last_modified = some told ∧
        (ConfigWatcher.mk "config.json" 2 (some 10) none).last_modified = some tnew ∧ told ≤ tnew :=
  c5_last_modified_monotone (ConfigWatcher.mk "config.json" 2 (some 10) none)
    ⟨some 5, ⟨true, true, none⟩, some 5⟩
    (ConfigWatcher.mk "config.json" 2 (some 10) none) .unchanged
    (fun t1 t2 h1 h2 => by
      injection h1 with e1
      injection h2 with e2
      omega)
    rfl

end Project01
